import Mathlib

/-!
# Verification of the `wikidata` crate's entity/claim decoding pipeline

A shallow embedding of the crate's core (`src/ids.rs`, `src/entity.rs`,
`src/text.rs`) into Lean 4.  JSON documents are modelled as a tree of
null/bool/number/string/array/object nodes mirroring `serde_json::Value`
(object field lists stand for the map in its iteration order; `serde_json`'s
default map is a `BTreeMap`, so concrete documents below list keys in sorted
order, and maps never hold a key twice).  Rust `f64` values are modelled
exactly, as sign/rational data without IEEE rounding: every property proved
here depends only on parse success or failure and on integer-valued numbers,
never on rounded float values.  Fallible Rust functions returning
`Result<T, EntityError>` become `RustResult T`, which has a third
constructor `panic` used to model the places where the source can abort
(byte-slice indexing on a non-boundary and `chrono`'s unchecked
`Date::and_hms`).
-/

namespace Wikidata

/-! ## Rust `f64` model -/

/-- Model of a Rust `f64` value: a finite rational, an infinity, or NaN.
The rational carries the exact decimal value, not the IEEE-rounded one. -/
inductive F64 where
  | finite (q : ℚ)
  | inf
  | neginf
  | nan
deriving DecidableEq, Repr

/-! ## JSON values (model of `serde_json::Value`) -/

/-- Model of `serde_json::Value`.  A `num` carries the value `as_f64`
returns on it (the crate never uses `serde_json`'s arbitrary-precision
feature, so `as_f64` is total on numbers). -/
inductive Json where
  | null
  | bool (b : Bool)
  | num (n : F64)
  | str (s : String)
  | arr (elems : List Json)
  | obj (fields : List (String × Json))

/-- `Value::as_str`. -/
def Json.asStr : Json → Option String
  | .str s => some s
  | _ => none

/-- `Value::as_array`. -/
def Json.asArr : Json → Option (List Json)
  | .arr xs => some xs
  | _ => none

/-- `Value::as_object`. -/
def Json.asObj : Json → Option (List (String × Json))
  | .obj fs => some fs
  | _ => none

/-- First binding of `key` in an object's field list (`Map::get`; keys are
unique in a `serde_json` map, so first-match lookup is the map lookup). -/
def lookupField (key : String) : List (String × Json) → Option Json
  | [] => none
  | (k, v) :: rest => if k = key then some v else lookupField key rest

/-- `Value::get` / `Value::get_mut` on a key: `None` unless the value is an
object holding the key. -/
def Json.get (j : Json) (key : String) : Option Json :=
  match j with
  | .obj fs => lookupField key fs
  | _ => none

/-- Remove the first binding of `key` (`Map::remove`'s effect on the field
list). -/
def removeField (key : String) : List (String × Json) → List (String × Json)
  | [] => []
  | (k, v) :: rest => if k = key then rest else (k, v) :: removeField key rest

/-- `take_prop(key, claim)` from `entity.rs`: remove and return the value at
`key` (or `Value::Null`), together with the remaining tree. -/
def takeProp (key : String) (j : Json) : Json × Json :=
  match j with
  | .obj fs =>
    match lookupField key fs with
    | some v => (v, .obj (removeField key fs))
    | none => (.null, .obj fs)
  | other => (.null, other)

/-! ## Error types and result type -/

/-- `IdParseError` from `ids.rs`.  `UnparseableNumber` carries a
`ParseIntError` payload in Rust; the payload is dropped here since the crate
never inspects it. -/
inductive IdParseError where
  | UnparseableNumber
  | InvalidPrefix
  | TooManyParts
  | TooFewParts
deriving DecidableEq, Repr

/-- `EntityError` from `entity.rs` (all variants, nullary as in the source). -/
inductive EntityError where
  | FloatParse
  | ExpectedString
  | ExpectedObject
  | ExpectedArray
  | ExpectedNumberString
  | ExpectedUriString
  | ExpectedQidString
  | ExpectedStringDatatype
  | TimeEmpty
  | BadId
  | NoDateYear
  | NoDateMatched
  | DateAmbiguous
  | InvalidDatatype
  | UnknownDatatype
  | MissingHour
  | MissingMinute
  | MissingSecond
  | InvalidSnaktype
  | InvalidPrecision
  | NoRank
  | NumberOutOfBounds
  | NoId
  | NoEntities
  | MultipleEntities
  | NoEntityType
  | NoClaims
  | NoClaimId
  | UnknownRank
  | NoSnakOrder
  | NoHash
  | NoReferenceSnaks
  | SnaksOrderIncludesNonSnak
  | QualifiersOrderButNoObject
  | QualiferOrderNamesNonQualifier
  | ExpectedKeyvalTextString
  | ExpectedTextValue
  | ExpectedAliasArray
  | ExpectedClaimArray
  | ExpectedReferenceArray
  | ExpectedReferenceSubsnakArray
  | ExpectedHashString
  | ExpectedLangString
  | ExpectedAliasString
  | ExpectedPidString
  | MissingMainsnak
deriving DecidableEq, Repr

/-- Outcome of running a fallible piece of the Rust decoder: a value, an
`EntityError`, or a panic (slice indexing out of bounds / off a char
boundary, or `chrono`'s `and_hms` on an invalid time of day). -/
inductive RustResult (α : Type) where
  | ok (a : α)
  | error (e : EntityError)
  | panic
deriving DecidableEq, Repr

/-! ## Integer and float parsing (Rust `FromStr` for `u16`/`u32`/`u64`/`i32`/`f64`) -/

/-- Decimal digit value of a character, if it is one of `'0'..='9'`. -/
def digitVal? (c : Char) : Option Nat :=
  if 48 ≤ c.toNat ∧ c.toNat ≤ 57 then some (c.toNat - 48) else none

/-- Accumulate a digit run left to right; `none` on the first non-digit. -/
def digitsValAux (acc : Nat) : List Char → Option Nat
  | [] => some acc
  | c :: cs =>
    match digitVal? c with
    | some d => digitsValAux (10 * acc + d) cs
    | none => none

/-- Value of a nonempty all-digit run; `none` otherwise. -/
def digitsVal (l : List Char) : Option Nat :=
  match l with
  | [] => none
  | _ => digitsValAux 0 l

/-- Rust `FromStr` for an unsigned integer of the given bit width: one
optional leading `'+'`, then a nonempty digit run; overflow is an error.
The exact final-value bound is equivalent to Rust's running overflow check
because the accumulated value only grows. -/
def parseUnsigned (width : Nat) (s : String) : Option Nat :=
  let l := match s.data with
    | '+' :: rest => rest
    | other => other
  match digitsVal l with
  | some v => if v < 2 ^ width then some v else none
  | none => none

/-- Rust `u64::from_str`. -/
def parseU64 (s : String) : Option Nat := parseUnsigned 64 s

/-- Rust `u32::from_str`. -/
def parseU32 (s : String) : Option Nat := parseUnsigned 32 s

/-- Rust `u16::from_str`. -/
def parseU16 (s : String) : Option Nat := parseUnsigned 16 s

/-- Rust `i32::from_str`: optional sign, nonempty digit run, `i32` range. -/
def parseI32 (s : String) : Option Int :=
  let (pos, l) : Bool × List Char := match s.data with
    | '+' :: rest => (true, rest)
    | '-' :: rest => (false, rest)
    | other => (true, other)
  match digitsVal l with
  | some v =>
    let n : Int := if pos then (v : Int) else -(v : Int)
    if -(2 ^ 31) ≤ n ∧ n ≤ 2 ^ 31 - 1 then some n else none
  | none => none

/-- Case-normalize an ASCII letter for `f64`'s case-insensitive `inf`/`nan`. -/
def asciiLower (c : Char) : Char :=
  if 65 ≤ c.toNat ∧ c.toNat ≤ 90 then Char.ofNat (c.toNat + 32) else c

/-- Digit-run value where the empty run counts as zero (used for the
fractional part of a float, which may be empty after a dot). -/
def digitsVal0 (l : List Char) : Option Nat :=
  match l with
  | [] => some 0
  | _ => digitsValAux 0 l

/-- Split a char run at the first occurrence of any of the given chars. -/
def spanNotIn (stops : List Char) : List Char → List Char × List Char
  | [] => ([], [])
  | c :: cs =>
    if c ∈ stops then ([], c :: cs)
    else
      let (a, b) := spanNotIn stops cs
      (c :: a, b)

/-- Exponent suffix of a Rust float literal: `('e'|'E') sign? digit+`,
already stripped of the leading `e`/`E`. -/
def parseExpPart (l : List Char) : Option Int :=
  let (pos, rest) : Bool × List Char := match l with
    | '+' :: r => (true, r)
    | '-' :: r => (false, r)
    | other => (true, other)
  match digitsVal rest with
  | some v => some (if pos then (v : Int) else -(v : Int))
  | none => none

/-- Rust `f64::from_str`, with the exact decimal value in place of IEEE
rounding: `sign? (inf|infinity|nan | digits [. digits] [exp] | . digits [exp])`,
`inf`/`infinity`/`nan` case-insensitive.  Only parse success/failure and
integer-valued results are relied upon by the theorems below. -/
def parseF64 (s : String) : Option F64 :=
  let (pos, l) : Bool × List Char := match s.data with
    | '+' :: rest => (true, rest)
    | '-' :: rest => (false, rest)
    | other => (true, other)
  let low := l.map asciiLower
  if low = "inf".data ∨ low = "infinity".data then
    some (if pos then F64.inf else F64.neginf)
  else if low = "nan".data then
    some F64.nan
  else
    let (intPart, rest1) := spanNotIn ['.', 'e', 'E'] l
    let (fracPart, rest2) : List Char × List Char := match rest1 with
      | '.' :: r =>
        let (f, r2) := spanNotIn ['e', 'E'] r
        (f, r2)
      | other => ([], other)
    let expVal : Option Int := match rest2 with
      | [] => some 0
      | 'e' :: r => parseExpPart r
      | 'E' :: r => parseExpPart r
      | _ => none
    if intPart = [] ∧ fracPart = [] then none
    else
      match digitsVal0 intPart, digitsVal0 fracPart, expVal with
      | some ip, some fp, some e =>
        let mant : ℚ := (ip : ℚ) + (fp : ℚ) / (10 : ℚ) ^ fracPart.length
        let mag : ℚ := mant * (10 : ℚ) ^ e
        some (F64.finite (if pos then mag else -mag))
      | _, _, _ => none

/-- Rust `f64 as u8`: a saturating cast truncating toward zero; NaN goes
to `0`. -/
def f64AsU8 (f : F64) : Nat :=
  match f with
  | .nan => 0
  | .neginf => 0
  | .inf => 255
  | .finite q => if q < 0 then 0 else if 255 < q then 255 else (⌊q⌋).toNat

/-! ## Char-run splitting (Rust `str::split`) -/

/-- Rust `str::split(char)`: split at every occurrence of `c`; always
yields at least one (possibly empty) piece. -/
def splitChar (c : Char) : List Char → List (List Char)
  | [] => [[]]
  | a :: as =>
    if a = c then [] :: splitChar c as
    else
      match splitChar c as with
      | [] => [[a]]
      | h :: t => (a :: h) :: t

/-- Fuel-indexed body of `splitStr`; every step consumes at least one
character, so fuel equal to the length is always enough. -/
def splitStrAux (pat : List Char) : Nat → List Char → List (List Char)
  | _, [] => [[]]
  | 0, l => [l]
  | fuel + 1, a :: as =>
    if pat ≠ [] ∧ pat.isPrefixOf (a :: as) then
      [] :: splitStrAux pat fuel ((a :: as).drop pat.length)
    else
      match splitStrAux pat fuel as with
      | [] => [[a]]
      | hd :: t => (a :: hd) :: t

/-- Rust `str::split(&str)` with a nonempty pattern: split at leftmost
non-overlapping occurrences of `pat`. -/
def splitStr (pat : List Char) (l : List Char) : List (List Char) :=
  splitStrAux pat l.length l

/-- Rust byte slice `&s[0..2]` on a UTF-8 `str`: the first two bytes when
`2` is a char boundary within the string, a panic otherwise (out of bounds
when the string is shorter than two bytes). -/
def byteSlice02 (l : List Char) : RustResult (List Char) :=
  match l with
  | [] => .panic
  | c :: rest =>
    if c.utf8Size = 2 then .ok [c]
    else if c.utf8Size = 1 then
      match rest with
      | [] => .panic
      | d :: _ => if d.utf8Size = 1 then .ok [c, d] else .panic
    else .panic

/-! ## Identifiers (`ids.rs`) -/

/-- `Qid(pub u64)`. -/
structure Qid where
  val : Nat
deriving DecidableEq, Repr

/-- `Pid(pub u64)`. -/
structure Pid where
  val : Nat
deriving DecidableEq, Repr

/-- `Lid(pub u64)`. -/
structure Lid where
  val : Nat
deriving DecidableEq, Repr

/-- `Fid(pub Lid, pub u16)`. -/
structure Fid where
  lid : Lid
  sub : Nat
deriving DecidableEq, Repr

/-- `Sid(pub Lid, pub u16)`. -/
structure Sid where
  lid : Lid
  sub : Nat
deriving DecidableEq, Repr

/-- Body of `id_def!`'s `FromStr`: the first character must be the kind's
letter (else `InvalidPrefix`), and the rest must parse as a `u64` (else
`UnparseableNumber`).  The letter is ASCII, so `&x[1..]` is the char tail. -/
def idFromStrCore (letter : Char) (x : String) : Except IdParseError Nat :=
  if x.data.head? ≠ some letter then .error .InvalidPrefix
  else
    match parseU64 (String.mk x.data.tail) with
    | some n => .ok n
    | none => .error .UnparseableNumber

/-- `Qid::from_str`. -/
def Qid.from_str (x : String) : Except IdParseError Qid :=
  (idFromStrCore 'Q' x).map Qid.mk

/-- `Pid::from_str`. -/
def Pid.from_str (x : String) : Except IdParseError Pid :=
  (idFromStrCore 'P' x).map Pid.mk

/-- `Lid::from_str`. -/
def Lid.from_str (x : String) : Except IdParseError Lid :=
  (idFromStrCore 'L' x).map Lid.mk

/-- Decimal digits of `n`, most significant first, prepended to `acc`
(Rust `u64`/`u16` `Display`), peeling one digit per unit of fuel; fuel
of at least the digit count is always enough. -/
def natDecimalAux : Nat → Nat → List Char → List Char
  | 0, _, acc => acc
  | fuel + 1, n, acc =>
    if n < 10 then Char.ofNat (48 + n) :: acc
    else natDecimalAux fuel (n / 10) (Char.ofNat (48 + n % 10) :: acc)

/-- Decimal representation of `n` (`n + 1` units of fuel always cover the
digit count). -/
def natDecimal (n : Nat) : List Char := natDecimalAux (n + 1) n []

/-- `Display` for `Qid`: `Q{n}`. -/
def Qid.fmt (q : Qid) : String := String.mk ('Q' :: natDecimal q.val)

/-- `Display` for `Pid`: `P{n}`. -/
def Pid.fmt (p : Pid) : String := String.mk ('P' :: natDecimal p.val)

/-- `Display` for `Lid`: `L{n}`. -/
def Lid.fmt (l : Lid) : String := String.mk ('L' :: natDecimal l.val)

/-- `Display` for `Fid`: `L{l}-F{m}`. -/
def Fid.fmt (f : Fid) : String :=
  String.mk ('L' :: natDecimal f.lid.val ++ '-' :: 'F' :: natDecimal f.sub)

/-- `Display` for `Sid`: `L{l}-S{m}`. -/
def Sid.fmt (s : Sid) : String :=
  String.mk ('L' :: natDecimal s.lid.val ++ '-' :: 'S' :: natDecimal s.sub)

/-- Body of `lexeme_subid_def!`'s `FromStr`: leading `'L'`, then the tail is
split on `'-'`; the first piece parses as `u64`, the second must exist and
start with the kind's letter and its tail parses as `u16`; a third piece is
`TooManyParts`. -/
def lexemeSubFromStrCore (khar : Char) (x : String) :
    Except IdParseError (Nat × Nat) :=
  if x.data.head? ≠ some 'L' then .error .InvalidPrefix
  else
    match splitChar '-' x.data.tail with
    | [] => .error .TooFewParts
    | p1 :: rest =>
      match parseU64 (String.mk p1) with
      | none => .error .UnparseableNumber
      | some lid =>
        match rest with
        | [] => .error .TooFewParts
        | p2 :: rest2 =>
          if p2.head? ≠ some khar then .error .InvalidPrefix
          else
            match parseU16 (String.mk p2.tail) with
            | none => .error .UnparseableNumber
            | some id =>
              if rest2 ≠ [] then .error .TooManyParts
              else .ok (lid, id)

/-- `Fid::from_str`. -/
def Fid.from_str (x : String) : Except IdParseError Fid :=
  (lexemeSubFromStrCore 'F' x).map fun p => ⟨⟨p.1⟩, p.2⟩

/-- `Sid::from_str`. -/
def Sid.from_str (x : String) : Except IdParseError Sid :=
  (lexemeSubFromStrCore 'S' x).map fun p => ⟨⟨p.1⟩, p.2⟩

/-- `WikiId` from `ids.rs`. -/
inductive WikiId where
  | EntityId (q : Qid)
  | PropertyId (p : Pid)
  | LexemeId (l : Lid)
deriving DecidableEq, Repr

/-- Modelled from the spec: `WikiId::from_str` is called by
`Entity::from_json` (entity.rs line 260) but its implementation is not among
the sources; per the spec the top-level `id` string is decoded "via the
Identifier Grammar" into one of the three `WikiId` kinds, so dispatch on the
leading letter and reuse the single-letter grammar.  Every claim below that
touches it only needs that a well-formed id such as `"Q42"` parses and that
failures are reported as errors (which `Entity::from_json` collapses to
`NoId` regardless of the variant). -/
def WikiId.from_str (s : String) : Except IdParseError WikiId :=
  match s.data.head? with
  | some 'Q' => (Qid.from_str s).map WikiId.EntityId
  | some 'P' => (Pid.from_str s).map WikiId.PropertyId
  | some 'L' => (Lid.from_str s).map WikiId.LexemeId
  | _ => .error .InvalidPrefix

/-! ## Text (`text.rs`) -/

/-- `Lang(pub String)`. -/
structure Lang where
  code : String
deriving DecidableEq, Repr

/-- `Text { text, lang }`. -/
structure Text where
  text : String
  lang : Lang
deriving DecidableEq, Repr

/-! ## Time parsing (`parse_wb_time` and its `chrono` collaborators) -/

/-- The value of a `chrono::DateTime<Utc>` built by `parse_wb_time`:
a proleptic-Gregorian calendar date plus a time of day, all in UTC. -/
structure WbDateTime where
  year : Int
  month : Nat
  day : Nat
  hour : Nat
  minute : Nat
  second : Nat
deriving DecidableEq, Repr

/-- Proleptic Gregorian leap-year rule (astronomical year numbering, as
`chrono` uses: year 0 exists and divisibility is on the signed year). -/
def isLeapYear (y : Int) : Bool :=
  y % 4 = 0 && (y % 100 ≠ 0 || y % 400 = 0)

/-- Days in a month of the proleptic Gregorian calendar. -/
def daysInMonth (y : Int) (m : Nat) : Nat :=
  if m = 2 then (if isLeapYear y then 29 else 28)
  else if m = 4 ∨ m = 6 ∨ m = 9 ∨ m = 11 then 30
  else 31

/-- Modelled from `chrono 0.4`: `Utc.ymd_opt` yields a single date exactly
when the month and day are in calendar range and the year is within
`chrono`'s representable range `MIN_YEAR ..= MAX_YEAR`
(`i32::MIN >> 13 = -262144` to `i32::MAX >> 13 = 262143`); otherwise it
yields `LocalResult::None`.  UTC has no fold, so `LocalResult::Ambiguous`
never occurs and the source's `DateAmbiguous` arm is unreachable. -/
def ymdOpt (y : Int) (m d : Nat) : Option (Int × Nat × Nat) :=
  if -262144 ≤ y ∧ y ≤ 262143 ∧ 1 ≤ m ∧ m ≤ 12 ∧ 1 ≤ d ∧ d ≤ daysInMonth y m
  then some (y, m, d)
  else none

/-- The month/day field reading inside `parse_wb_time`: a parsed value of
`0` and an unparsable field both mean "unspecified" (`None`). -/
def optMonthDay (s : String) : Option Nat :=
  match parseU32 s with
  | some 0 => none
  | none => none
  | some x => some x

/-- `parse_wb_time` from `entity.rs`.  `&time[1..]` is a byte slice, so a
multi-byte first character is a panic; the seconds field is read through the
byte slice `[0..2]`; `Date::and_hms` panics on an out-of-range time of day
(`chrono`'s unchecked constructor: hour < 24, minute < 60, second < 60). -/
def parse_wb_time (time : String) : RustResult WbDateTime :=
  match time.data with
  | [] => .error .TimeEmpty
  | c0 :: rest =>
    let is_ce := c0 = '+'
    if c0.utf8Size ≠ 1 then .panic
    else
      let time_parts := splitChar 'T' rest
      let dash_parts := splitChar '-' (time_parts.headD [])
      match parseI32 (String.mk (dash_parts.headD [])) with
      | none => .error .NoDateYear
      | some year =>
        let year := year * (if is_ce then 1 else -1)
        let month : Option Nat := match dash_parts.get? 1 with
          | some ms => optMonthDay (String.mk ms)
          | none => none
        let day : Option Nat := match dash_parts.get? 2 with
          | some ds => optMonthDay (String.mk ds)
          | none => none
        match ymdOpt year (month.getD 1) (day.getD 1) with
        | none => .error .NoDateMatched
        | some (y, m, d) =>
          if time_parts.length = 2 then
            let colon_parts := splitChar ':' (time_parts.getD 1 [])
            match colon_parts.get? 0 with
            | none => .error .MissingHour
            | some hs =>
              match parseU32 (String.mk hs) with
              | none => .error .FloatParse
              | some hour =>
                match colon_parts.get? 1 with
                | none => .error .MissingMinute
                | some mins =>
                  match parseU32 (String.mk mins) with
                  | none => .error .FloatParse
                  | some minute =>
                    match colon_parts.get? 2 with
                    | none => .error .MissingSecond
                    | some ss =>
                      match byteSlice02 ss with
                      | .panic => .panic
                      | .error _ => .panic
                      | .ok ss2 =>
                        match parseU32 (String.mk ss2) with
                        | none => .error .FloatParse
                        | some sec =>
                          if hour ≤ 23 ∧ minute ≤ 59 ∧ sec ≤ 59
                          then .ok ⟨y, m, d, hour, minute, sec⟩
                          else .panic
          else
            .ok ⟨y, m, d, 0, 0, 0⟩

/-! ## Number and Qid-URI helpers (`entity.rs`) -/

/-- `get_json_string`. -/
def get_json_string (j : Json) : RustResult String :=
  match j.asStr with
  | some s => .ok s
  | none => .error .ExpectedString

/-- `parse_wb_number`: a native JSON number is taken as its `as_f64` value
(always present without the arbitrary-precision feature, so
`NumberOutOfBounds` is unreachable); a string is parsed as `f64` after
stripping one leading `'+'` byte; anything else is `ExpectedNumberString`. -/
def parse_wb_number (num : Json) : RustResult F64 :=
  match num with
  | .num n => .ok n
  | .str s =>
    let s' : String := match s.data with
      | '+' :: rest => String.mk rest
      | _ => s
    match parseF64 s' with
    | some x => .ok x
    | none => .error .FloatParse
  | _ => .error .ExpectedNumberString

/-- The Wikidata entity-URI pattern `try_get_as_qid` splits on. -/
def entityUriPat : List Char := "http://www.wikidata.org/entity/Q".data

/-- `try_get_as_qid`: the piece after the first occurrence of the entity-URI
pattern must exist and parse as `u64`. -/
def try_get_as_qid (datavalue : Json) : RustResult Qid :=
  match datavalue.asStr with
  | none => .error .ExpectedUriString
  | some s =>
    match (splitStr entityUriPat s.data).get? 1 with
    | none => .error .ExpectedQidString
    | some piece =>
      match parseU64 (String.mk piece) with
      | some n => .ok ⟨n⟩
      | none => .error .FloatParse

/-! ## Claim values and the snak decoder (`entity.rs`) -/

/-- `ClaimValueData` from `entity.rs`, one constructor per variant, fields
in source order.  The source's `String` variant is `StringV` here (`String`
as a constructor name would shadow the string type inside the declaration). -/
inductive ClaimValueData where
  | CommonsMedia (s : String)
  | GlobeCoordinate (lat lon precision : F64) (globe : Qid)
  | Item (q : Qid)
  | Property (p : Pid)
  | StringV (s : String)
  | MonolingualText (t : Text)
  | MultilingualText (ts : List Text)
  | ExternalID (s : String)
  | Quantity (amount : F64) (lower_bound upper_bound : Option F64)
      (unit : Option Qid)
  | DateTime (date_time : WbDateTime) (precision : Nat)
  | Url (s : String)
  | MathExpr (s : String)
  | GeoShape (s : String)
  | MusicNotation (s : String)
  | TabularData (s : String)
  | Lexeme (l : Lid)
  | Form (f : Fid)
  | Sense (s : Sid)
  | NoValue
  | UnknownValue
deriving Repr

/-- `Rank` from `entity.rs`. -/
inductive Rank where
  | Deprecated
  | Normal
  | Preferred
deriving DecidableEq, Repr

/-- `Rank::from_str`. -/
def Rank.from_str (x : String) : Except EntityError Rank :=
  match x with
  | "normal" => .ok .Normal
  | "deprecated" => .ok .Deprecated
  | "preferred" => .ok .Preferred
  | _ => .error .UnknownRank

/-- `ReferenceGroup`. -/
structure ReferenceGroup where
  claims : List (Pid × ClaimValueData)
  hash : String

/-- `ClaimValue`, fields in source order. -/
structure ClaimValue where
  data : ClaimValueData
  rank : Rank
  id : String
  qualifiers : List (Pid × ClaimValueData)
  references : List ReferenceGroup

/-- The `"string"` arm of the datavalue dispatch: the payload must be a bare
string, and the declared `datatype` chooses the variant. -/
def stringArm (datatype : String) (value : Json) : RustResult ClaimValueData :=
  match value.asStr with
  | none => .error .ExpectedStringDatatype
  | some s =>
    match datatype with
    | "string" => .ok (ClaimValueData.StringV s)
    | "commonsMedia" => .ok (ClaimValueData.CommonsMedia s)
    | "external-id" => .ok (ClaimValueData.ExternalID s)
    | "math" => .ok (ClaimValueData.MathExpr s)
    | "geo-shape" => .ok (ClaimValueData.GeoShape s)
    | "musical-notation" => .ok ( ClaimValueData.MusicNotation s)
    | "tabular-data" => .ok (ClaimValueData.TabularData s)
    | "url" => .ok (ClaimValueData.Url s)
    | _ => .error .InvalidDatatype

/-- The `"wikibase-entityid"` arm: dispatch on the `id` string's first
character; `L` ids split on `'-'` into lexeme / form / sense.  All the byte
slices here follow a checked one-byte ASCII first character. -/
def entityIdArm (value : Json) : RustResult ClaimValueData :=
  match get_json_string (takeProp "id" value).1 with
  | .error e => .error e
  | .panic => .panic
  | .ok id =>
    match id.data.head? with
    | none => .error .BadId
    | some c =>
      match c with
      | 'Q' =>
        match parseU64 (String.mk id.data.tail) with
        | some n => .ok (ClaimValueData.Item ⟨n⟩)
        | none => .error .BadId
      | 'P' =>
        match parseU64 (String.mk id.data.tail) with
        | some n => .ok (ClaimValueData.Property ⟨n⟩)
        | none => .error .BadId
      | 'L' =>
        match splitChar '-' id.data with
        | [_] =>
          match parseU64 (String.mk id.data.tail) with
          | some n => .ok (ClaimValueData.Lexeme ⟨n⟩)
          | none => .error .BadId
        | [p0, p1] =>
          match p1.head? with
          | none => .error .BadId
          | some 'F' =>
            match parseU64 (String.mk p0.tail), parseU16 (String.mk p1.tail) with
            | some l, some m => .ok (ClaimValueData.Form ⟨⟨l⟩, m⟩)
            | _, _ => .error .BadId
          | some 'S' =>
            match parseU64 (String.mk p0.tail), parseU16 (String.mk p1.tail) with
            | some l, some m => .ok (ClaimValueData.Sense ⟨⟨l⟩, m⟩)
            | _, _ => .error .BadId
          | some _ => .error .BadId
        | _ => .error .BadId
      | _ => .error .BadId

/-- The `"globecoordinate"` arm: latitude and longitude are required,
`precision` falls back to `1.0`, and `globe` must be an entity URI. -/
def globeArm (value : Json) : RustResult ClaimValueData :=
  let v1 := (takeProp "latitude" value).2
  match parse_wb_number (takeProp "latitude" value).1 with
  | .error e => .error e
  | .panic => .panic
  | .ok lat =>
    let v2 := (takeProp "longitude" v1).2
    match parse_wb_number (takeProp "longitude" v1).1 with
    | .error e => .error e
    | .panic => .panic
    | .ok lon =>
      let v3 := (takeProp "precision" v2).2
      let precision : F64 := match parse_wb_number (takeProp "precision" v2).1 with
        | .ok p => p
        | _ => F64.finite 1
      match try_get_as_qid (takeProp "globe" v3).1 with
      | .error e => .error e
      | .panic => .panic
      | .ok globe => .ok (ClaimValueData.GlobeCoordinate lat lon precision globe)

/-- The `"quantity"` arm: `amount` is required; `upperBound`, `lowerBound`
and `unit` are read through Rust's `Result::ok`, so their parse failures
become `None` (a panic would still propagate, though none is reachable in
these parsers). -/
def quantityArm (value : Json) : RustResult ClaimValueData :=
  let v1 := (takeProp "amount" value).2
  match parse_wb_number (takeProp "amount" value).1 with
  | .error e => .error e
  | .panic => .panic
  | .ok amount =>
    let v2 := (takeProp "upperBound" v1).2
    match parse_wb_number (takeProp "upperBound" v1).1 with
    | .panic => .panic
    | ub =>
      let upper_bound : Option F64 := match ub with
        | .ok x => some x
        | _ => none
      let v3 := (takeProp "lowerBound" v2).2
      match parse_wb_number (takeProp "lowerBound" v2).1 with
      | .panic => .panic
      | lb =>
        let lower_bound : Option F64 := match lb with
          | .ok x => some x
          | _ => none
        match try_get_as_qid (takeProp "unit" v3).1 with
        | .panic => .panic
        | u =>
          let unit : Option Qid := match u with
            | .ok x => some x
            | _ => none
          .ok (ClaimValueData.Quantity amount lower_bound upper_bound unit)

/-- The `"time"` arm: the `time` string is required; a `parse_wb_time`
failure degrades the snak to `UnknownValue`; on success `precision` is
required and any parse failure on it is `InvalidPrecision`, with the value
cast `as u8`. -/
def timeArm (value : Json) : RustResult ClaimValueData :=
  let v1 := (takeProp "time" value).2
  match get_json_string (takeProp "time" value).1 with
  | .error e => .error e
  | .panic => .panic
  | .ok ts =>
    match parse_wb_time ts with
    | .panic => .panic
    | .error _ => .ok ClaimValueData.UnknownValue
    | .ok date_time =>
      match parse_wb_number (takeProp "precision" v1).1 with
      | .ok p => .ok (ClaimValueData.DateTime date_time (f64AsU8 p))
      | .error _ => .error .InvalidPrecision
      | .panic => .panic

/-- The `"monolingualtext"` arm: `text` and `language` strings required. -/
def monoArm (value : Json) : RustResult ClaimValueData :=
  let v1 := (takeProp "text" value).2
  match get_json_string (takeProp "text" value).1 with
  | .error e => .error e
  | .panic => .panic
  | .ok text =>
    match get_json_string (takeProp "language" v1).1 with
    | .error e => .error e
    | .panic => .panic
    | .ok lang => .ok (ClaimValueData.MonolingualText ⟨text, ⟨lang⟩⟩)

/-- Dispatch on `datavalue.type` (after `snaktype == "value"`). -/
def valueBody (datatype type_str : String) (value : Json) :
    RustResult ClaimValueData :=
  match type_str with
  | "string" => stringArm datatype value
  | "wikibase-entityid" => entityIdArm value
  | "globecoordinate" => globeArm value
  | "quantity" => quantityArm value
  | "time" => timeArm value
  | "monolingualtext" => monoArm value
  | _ => .error .UnknownDatatype

/-- The datavalue part of `parse_snak` once the snaktype is `"value"`:
read `datavalue.type` (its absence or non-string shape is
`InvalidSnaktype`), take `datavalue.value`, and dispatch. -/
def datavalueBody (datatype : String) (datavalue : Json) :
    RustResult ClaimValueData :=
  let dv1 := (takeProp "type" datavalue).2
  match (takeProp "type" datavalue).1.asStr with
  | none => .error .InvalidSnaktype
  | some type_str => valueBody datatype type_str (takeProp "value" dv1).1

/-- The snaktype dispatch of `parse_snak`. -/
def snakBody (datatype snaktype : String) (datavalue : Json) :
    RustResult ClaimValueData :=
  match snaktype with
  | "value" => datavalueBody datatype datavalue
  | "somevalue" => .ok ClaimValueData.UnknownValue
  | "novalue" => .ok ClaimValueData.NoValue
  | _ => .error .InvalidSnaktype

/-- `ClaimValueData::parse_snak`: take `datavalue`, then `datatype` (which
must be a string — read before the snaktype dispatch), then `snaktype`, and
dispatch. -/
def parse_snak (snak : Json) : RustResult ClaimValueData :=
  let s1 := (takeProp "datavalue" snak).2
  let s2 := (takeProp "datatype" s1).2
  match get_json_string (takeProp "datatype" s1).1 with
  | .error e => .error e
  | .panic => .panic
  | .ok datatype =>
    match get_json_string (takeProp "snaktype" s2).1 with
    | .error e => .error e
    | .panic => .panic
    | .ok snaktype => snakBody datatype snaktype (takeProp "datavalue" snak).1

/-! ## Entity decoding (`Entity::from_json`) -/

/-- `EntityType`. -/
inductive EntityType where
  | Entity
  | Property
  | Lexeme
deriving DecidableEq, Repr

/-- `Entity`.  The three `BTreeMap`s are modelled as binding lists; the
decoder below inserts with replace-or-append, which carries the same
key-to-value content (input maps never repeat a key, and no claim here
compares two maps built in different orders). -/
structure Entity where
  id : WikiId
  claims : List (Pid × ClaimValue)
  entity_type : EntityType
  descriptions : List (Lang × String)
  labels : List (Lang × String)
  aliases : List (Lang × List String)

/-- `BTreeMap::insert` on the binding-list model: replace the binding if
the key is present, append otherwise. -/
def mapInsert {α : Type} (k : Lang) (v : α) :
    List (Lang × α) → List (Lang × α)
  | [] => [(k, v)]
  | (k', v') :: rest =>
    if k' = k then (k, v) :: rest else (k', v') :: mapInsert k v rest

/-- Inner loop of the `text_keyval!` macro over one map's fields. -/
def textKeyvalLoop (acc : List (Lang × String)) :
    List (String × Json) → RustResult (List (Lang × String))
  | [] => .ok acc
  | (key, val) :: rest =>
    match val.asObj with
    | none => .error .ExpectedObject
    | some obj =>
      match lookupField "value" obj with
      | none => .error .ExpectedLangString
      | some v =>
        match v.asStr with
        | none => .error .ExpectedKeyvalTextString
        | some s => textKeyvalLoop (mapInsert ⟨key⟩ s acc) rest

/-- The `text_keyval!` macro from `Entity::from_json`: absence of the key
is an empty map; once present, the map's shape is structurally required. -/
def textKeyval (json : Json) (key : String) : RustResult (List (Lang × String)) :=
  match json.get key with
  | none => .ok []
  | some jm =>
    match jm.asObj with
    | none => .error .ExpectedObject
    | some fields => textKeyvalLoop [] fields

/-- Inner loop of the aliases block: each language maps to an array, and
each element's `value` string is kept best-effort (`filter_map`). -/
def aliasesLoop (acc : List (Lang × List String)) :
    List (String × Json) → RustResult (List (Lang × List String))
  | [] => .ok acc
  | (key, val) :: rest =>
    match val.asArr with
    | none => .error .ExpectedAliasArray
    | some xs =>
      let vals := xs.filterMap fun v => (v.get "value").bind Json.asStr
      aliasesLoop (mapInsert ⟨key⟩ vals acc) rest

/-- The aliases block of `Entity::from_json`. -/
def parseAliases (json : Json) : RustResult (List (Lang × List String)) :=
  match json.get "aliases" with
  | none => .ok []
  | some jm =>
    match jm.asObj with
    | none => .error .ExpectedObject
    | some fields => aliasesLoop [] fields

/-- Innermost reference loop: every subsnak under one ordered property. -/
def refSubsnakLoop (pidStr : String) (acc : List (Pid × ClaimValueData)) :
    List Json → RustResult (List (Pid × ClaimValueData))
  | [] => .ok acc
  | subsnak :: rest =>
    match Pid.from_str pidStr with
    | .error _ => .error .BadId
    | .ok pid =>
      match parse_snak subsnak with
      | .error e => .error e
      | .panic => .panic
      | .ok data => refSubsnakLoop pidStr (acc ++ [(pid, data)]) rest

/-- Walk one reference group's `snaks-order`, looking each property up in
its `snaks` object. -/
def refOrderLoop (snaks : List (String × Json))
    (acc : List (Pid × ClaimValueData)) :
    List Json → RustResult (List (Pid × ClaimValueData))
  | [] => .ok acc
  | pidV :: rest =>
    match pidV.asStr with
    | none => .error .ExpectedPidString
    | some pidStr =>
      match lookupField pidStr snaks with
      | none => .error .SnaksOrderIncludesNonSnak
      | some sub =>
        match sub.asArr with
        | none => .error .ExpectedReferenceArray
        | some subs =>
          match refSubsnakLoop pidStr acc subs with
          | .error e => .error e
          | .panic => .panic
          | .ok acc' => refOrderLoop snaks acc' rest

/-- One reference group: required `snaks` object, required `snaks-order`
array, then the ordered walk, then the required `hash` string. -/
def refGroupsLoop (acc : List ReferenceGroup) :
    List Json → RustResult (List ReferenceGroup)
  | [] => .ok acc
  | group :: rest =>
    match group.get "snaks" with
    | none => .error .NoReferenceSnaks
    | some snaksV =>
      match snaksV.asObj with
      | none => .error .ExpectedObject
      | some snaks =>
        match (group.get "snaks-order").bind Json.asArr with
        | none => .error .NoSnakOrder
        | some order =>
          match refOrderLoop snaks [] order with
          | .error e => .error e
          | .panic => .panic
          | .ok claims =>
            match group.get "hash" with
            | none => .error .NoHash
            | some hashV =>
              match hashV.asStr with
              | none => .error .ExpectedHashString
              | some hash => refGroupsLoop (acc ++ [⟨claims, hash⟩]) rest

/-- The references block of one claim node: absent (or non-array)
`references` means no reference groups. -/
def parseReferences (claim : Json) : RustResult (List ReferenceGroup) :=
  match (claim.get "references").bind Json.asArr with
  | none => .ok []
  | some groups => refGroupsLoop [] groups

/-- Snaks of one qualifier property, in array order. -/
def qualListLoop (pid : Pid) (acc : List (Pid × ClaimValueData)) :
    List Json → RustResult (List (Pid × ClaimValueData))
  | [] => .ok acc
  | qual :: rest =>
    match parse_snak qual with
    | .error e => .error e
    | .panic => .panic
    | .ok data => qualListLoop pid (acc ++ [(pid, data)]) rest

/-- Walk `qualifiers-order`, looking each property up in the `qualifiers`
object. -/
def qualOrderLoop (qualifiers_json : List (String × Json))
    (acc : List (Pid × ClaimValueData)) :
    List Json → RustResult (List (Pid × ClaimValueData))
  | [] => .ok acc
  | pidV :: rest =>
    match pidV.asStr with
    | none => .error .NoId
    | some pidStr =>
      match Pid.from_str pidStr with
      | .error _ => .error .BadId
      | .ok pid =>
        match (lookupField pidStr qualifiers_json).bind Json.asArr with
        | none => .error .QualiferOrderNamesNonQualifier
        | some qual_list =>
          match qualListLoop pid acc qual_list with
          | .error e => .error e
          | .panic => .panic
          | .ok acc' => qualOrderLoop qualifiers_json acc' rest

/-- The qualifiers block of one claim node in `Entity::from_json`: the
branch is taken only when `qualifiers-order` is present as an array — its
absence yields an empty qualifier list no matter what `qualifiers` holds —
and inside the branch a missing `qualifiers` object is
`QualifiersOrderButNoObject`. -/
def parseQualifiers (claim : Json) : RustResult (List (Pid × ClaimValueData)) :=
  match (claim.get "qualifiers-order").bind Json.asArr with
  | none => .ok []
  | some order =>
    match claim.get "qualifiers" with
    | none => .error .QualifiersOrderButNoObject
    | some qj =>
      match qj.asObj with
      | none => .error .ExpectedObject
      | some qualifiers_json => qualOrderLoop qualifiers_json [] order

/-- One claim node: references, qualifiers, then the `ClaimValue` literal's
fields in source order (`id`, `rank`, mainsnak data). -/
def claimFromNode (claim : Json) : RustResult ClaimValue :=
  match parseReferences claim with
  | .error e => .error e
  | .panic => .panic
  | .ok references =>
    match parseQualifiers claim with
    | .error e => .error e
    | .panic => .panic
    | .ok qualifiers =>
      match (claim.get "id").bind Json.asStr with
      | none => .error .NoClaimId
      | some idStr =>
        match (claim.get "rank").bind Json.asStr with
        | none => .error .NoRank
        | some rankStr =>
          match Rank.from_str rankStr with
          | .error e => .error e
          | .ok rank =>
            match claim.get "mainsnak" with
            | none => .error .MissingMainsnak
            | some mainsnak =>
              match parse_snak mainsnak with
              | .error e => .error e
              | .panic => .panic
              | .ok data => .ok ⟨data, rank, idStr, qualifiers, references⟩

/-- All claim nodes of one property. -/
def claimArrLoop (pid : Pid) (acc : List (Pid × ClaimValue)) :
    List Json → RustResult (List (Pid × ClaimValue))
  | [] => .ok acc
  | node :: rest =>
    match claimFromNode node with
    | .error e => .error e
    | .panic => .panic
    | .ok cv => claimArrLoop pid (acc ++ [(pid, cv)]) rest

/-- The claims map, walked in its iteration order (sorted keys in
`serde_json`'s default map). -/
def claimsLoop (acc : List (Pid × ClaimValue)) :
    List (String × Json) → RustResult (List (Pid × ClaimValue))
  | [] => .ok acc
  | (pidStr, claim_list) :: rest =>
    match Pid.from_str pidStr with
    | .error _ => .error .BadId
    | .ok pid =>
      match claim_list.asArr with
      | none => .error .ExpectedClaimArray
      | some nodes =>
        match claimArrLoop pid acc nodes with
        | .error e => .error e
        | .panic => .panic
        | .ok acc' => claimsLoop acc' rest

/-- `Entity::from_json` after the envelope has been unwrapped: decode the
working entity node (`id`, labels, descriptions, aliases, `type`, claims,
in source order). -/
def entityFromNode (json : Json) : RustResult Entity :=
  match json.get "id" with
  | none => .error .ExpectedObject
  | some idV =>
    match idV.asStr with
    | none => .error .ExpectedKeyvalTextString
    | some raw_id =>
      match WikiId.from_str raw_id with
      | .error _ => .error .NoId
      | .ok id =>
        match textKeyval json "labels" with
        | .error e => .error e
        | .panic => .panic
        | .ok labels =>
          match textKeyval json "descriptions" with
          | .error e => .error e
          | .panic => .panic
          | .ok descriptions =>
            match parseAliases json with
            | .error e => .error e
            | .panic => .panic
            | .ok aliases =>
              match (json.get "type").map Json.asStr with
              | none => .error .NoEntityType
              | some tv =>
                let entity_type : RustResult EntityType := match tv with
                  | some "item" => .ok EntityType.Entity
                  | some "property" => .ok EntityType.Property
                  | some "lexeme" => .ok EntityType.Lexeme
                  | _ => .error .NoEntityType
                match entity_type with
                | .error e => .error e
                | .panic => .panic
                | .ok entity_type =>
                  match json.get "claims" with
                  | none => .error .NoClaims
                  | some claimsV =>
                    match claimsV.asObj with
                    | none => .error .ExpectedObject
                    | some claimsFields =>
                      match claimsLoop [] claimsFields with
                      | .error e => .error e
                      | .panic => .panic
                      | .ok claims =>
                        .ok ⟨id, claims, entity_type, descriptions, labels,
                          aliases⟩

/-- `Entity::from_json`: unwrap a `{"entities": {...}}` envelope when
present (exactly one entry required), then decode the working node. -/
def Entity.from_json (json : Json) : RustResult Entity :=
  match json.get "entities" with
  | some ents =>
    match ents.asObj with
    | none => .error .ExpectedObject
    | some fields =>
      match fields with
      | [] => .error .NoEntities
      | [(_, v)] => entityFromNode v
      | _ => .error .MultipleEntities
  | none => entityFromNode json


/-- Rust `Result::ok()`: drop the error, keep a success as `Some`
(statement-level shorthand; panics cannot occur in the parsers it is
applied to below). -/
def resultToOption {α : Type} : RustResult α → Option α
  | .ok a => some a
  | _ => none

/-- A single-entity document whose only claim node carries a `qualifiers`
object but no `qualifiers-order` array (all object keys in sorted order, as
`serde_json`'s map iterates them). -/
def c1Doc : Json := Json.obj
  [("claims", Json.obj
     [("P1", Json.arr
        [Json.obj
          [("id", Json.str "x"),
           ("mainsnak", Json.obj
              [("datatype", Json.str "string"),
               ("snaktype", Json.str "novalue")]),
           ("qualifiers", Json.obj
              [("P2", Json.arr
                 [Json.obj [("datatype", Json.str "string"),
                            ("snaktype", Json.str "novalue")]])]),
           ("rank", Json.str "normal")]])]),
   ("id", Json.str "Q1"),
   ("type", Json.str "item")]

/-! ## Helper lemmas -/

theorem digitVal?_digitChar (m : Nat) (h : m < 10) :
    digitVal? (Char.ofNat (48 + m)) = some m := by
  interval_cases m <;> decide

theorem digitsValAux_cons (a m : Nat) (h : m < 10) (rest : List Char) :
    digitsValAux a (Char.ofNat (48 + m) :: rest)
      = digitsValAux (10 * a + m) rest := by
  simp [digitsValAux, digitVal?_digitChar m h]

theorem natDecimalAux_head (fuel : Nat) :
    ∀ n acc, 0 < fuel → n < 10 ^ fuel →
      ∃ m rest, m < 10 ∧ natDecimalAux fuel n acc = Char.ofNat (48 + m) :: rest := by
  induction fuel with
  | zero => intro n acc hpos _; omega
  | succ f ih =>
    intro n acc _ h
    by_cases h10 : n < 10
    · exact ⟨n, acc, h10, by simp [natDecimalAux, h10]⟩
    · have hf : 0 < f := by
        rcases Nat.eq_zero_or_pos f with hf0 | hf0
        · subst hf0; norm_num at h; omega
        · exact hf0
      have hlt : n / 10 < 10 ^ f := by
        rw [pow_succ] at h
        exact (Nat.div_lt_iff_lt_mul (by norm_num)).mpr h
      obtain ⟨m, rest, hm, heq⟩ := ih (n / 10) (Char.ofNat (48 + n % 10) :: acc) hf hlt
      exact ⟨m, rest, hm, by simp [natDecimalAux, h10, heq]⟩

theorem natDecimalAux_val (fuel : Nat) :
    ∀ n a acc, 0 < fuel → n < 10 ^ fuel →
      ∃ k, digitsValAux a (natDecimalAux fuel n acc)
        = digitsValAux (a * 10 ^ k + n) acc := by
  induction fuel with
  | zero => intro n a acc hpos _; omega
  | succ f ih =>
    intro n a acc _ h
    by_cases h10 : n < 10
    · refine ⟨1, ?_⟩
      have : a * 10 ^ 1 + n = 10 * a + n := by ring
      rw [this]
      simp [natDecimalAux, h10, digitsValAux_cons a n h10]
    · have hf : 0 < f := by
        rcases Nat.eq_zero_or_pos f with hf0 | hf0
        · subst hf0; norm_num at h; omega
        · exact hf0
      have hlt : n / 10 < 10 ^ f := by
        rw [pow_succ] at h
        exact (Nat.div_lt_iff_lt_mul (by norm_num)).mpr h
      obtain ⟨k, hk⟩ := ih (n / 10) a (Char.ofNat (48 + n % 10) :: acc) hf hlt
      refine ⟨k + 1, ?_⟩
      have hmod : n % 10 < 10 := Nat.mod_lt _ (by omega)
      have hdm : 10 * (n / 10) + n % 10 = n := Nat.div_add_mod n 10
      calc digitsValAux a (natDecimalAux (f+1) n acc)
          = digitsValAux a (natDecimalAux f (n / 10) (Char.ofNat (48 + n % 10) :: acc)) := by
            simp [natDecimalAux, h10]
        _ = digitsValAux (a * 10 ^ k + n / 10) (Char.ofNat (48 + n % 10) :: acc) := hk
        _ = digitsValAux (10 * (a * 10 ^ k + n / 10) + n % 10) acc :=
            digitsValAux_cons _ _ hmod _
        _ = digitsValAux (a * 10 ^ (k + 1) + n) acc := by
            congr 1
            calc 10 * (a * 10 ^ k + n / 10) + n % 10
                = a * (10 ^ k * 10) + (10 * (n / 10) + n % 10) := by ring
              _ = a * 10 ^ (k + 1) + n := by rw [hdm, pow_succ]

theorem lt_ten_pow (n : Nat) : n < 10 ^ (n + 1) := by
  calc n < 2 ^ n := Nat.lt_two_pow n
    _ ≤ 10 ^ n := Nat.pow_le_pow_left (by norm_num) n
    _ ≤ 10 ^ (n + 1) := Nat.pow_le_pow_right (by norm_num) (Nat.le_succ n)

theorem parseUnsigned_natDecimal (w n : Nat) (h : n < 2 ^ w) :
    parseUnsigned w (String.mk (natDecimal n)) = some n := by
  obtain ⟨m, rest, hm, hhead⟩ :=
    natDecimalAux_head (n + 1) n [] (Nat.succ_pos n) (lt_ten_pow n)
  obtain ⟨k, hval⟩ :=
    natDecimalAux_val (n + 1) n 0 [] (Nat.succ_pos n) (lt_ten_pow n)
  have hdata : (String.mk (natDecimal n)).data = Char.ofNat (48 + m) :: rest := by
    simpa [natDecimal] using hhead
  have hne : Char.ofNat (48 + m) ≠ '+' := by
    intro hc
    have hd := digitVal?_digitChar m hm
    rw [hc] at hd
    simp [digitVal?] at hd
  have h2 : digitsValAux 0 (Char.ofNat (48 + m) :: rest) = some n := by
    rw [← hhead, hval]
    simp [digitsValAux]
  unfold parseUnsigned
  rw [hdata]
  have hmatch : (match Char.ofNat (48 + m) :: rest with
      | '+' :: r => r
      | other => other) = Char.ofNat (48 + m) :: rest := by
    split
    next r heq =>
      exfalso
      injection heq with h1 _
      exact hne h1
    next => rfl
  rw [hmatch]
  simp [digitsVal, h2, h]



/-- A character of `natDecimalAux`'s output is from the accumulator or a digit. -/
theorem natDecimalAux_mem (fuel : Nat) :
    ∀ n acc c, c ∈ natDecimalAux fuel n acc →
      c ∈ acc ∨ ∃ m, m < 10 ∧ c = Char.ofNat (48 + m) := by
  induction fuel with
  | zero => intro n acc c hc; simp [natDecimalAux] at hc; exact Or.inl hc
  | succ f ih =>
    intro n acc c hc
    by_cases h10 : n < 10
    · simp [natDecimalAux, h10] at hc
      rcases hc with hc | hc
      · exact Or.inr ⟨n, h10, hc⟩
      · exact Or.inl hc
    · simp only [natDecimalAux, if_neg h10] at hc
      rcases ih (n / 10) (Char.ofNat (48 + n % 10) :: acc) c hc with hc' | hc'
      · rcases List.mem_cons.mp hc' with hc'' | hc''
        · exact Or.inr ⟨n % 10, Nat.mod_lt _ (by omega), hc''⟩
        · exact Or.inl hc''
      · exact Or.inr hc'

/-- No separator-like character occurs in a decimal rendering. -/
theorem not_mem_natDecimal (c : Char) (n : Nat) (hc : digitVal? c = none) :
    c ∉ natDecimal n := by
  intro hmem
  rcases natDecimalAux_mem (n + 1) n [] c hmem with h | ⟨m, hm, hceq⟩
  · simp at h
  · rw [hceq, digitVal?_digitChar m hm] at hc
    exact Option.some_ne_none m hc

theorem splitChar_of_not_mem (c : Char) :
    ∀ xs : List Char, c ∉ xs → splitChar c xs = [xs] := by
  intro xs
  induction xs with
  | nil => intro _; rfl
  | cons a as ih =>
    intro hmem
    have ha : a ≠ c := fun hac => hmem (hac ▸ List.mem_cons_self a as)
    have has : c ∉ as := fun h => hmem (List.mem_cons_of_mem a h)
    simp [splitChar, ha, ih has]

theorem splitChar_append (c : Char) (xs ys : List Char) (hx : c ∉ xs) :
    splitChar c (xs ++ c :: ys) = xs :: splitChar c ys := by
  induction xs with
  | nil => simp [splitChar]
  | cons a as ih =>
    have ha : a ≠ c := fun hac => hx (hac ▸ List.mem_cons_self a as)
    have has : c ∉ as := fun h => hx (List.mem_cons_of_mem a h)
    have hih := ih has
    simp only [List.cons_append, splitChar, if_neg ha, ite_false, eq_self_iff_true]
    rw [show as.append (c :: ys) = as ++ c :: ys from rfl, hih]



theorem idFromStrCore_fmt (letter : Char) (n : Nat) (h : n < 2 ^ 64) :
    idFromStrCore letter (String.mk (letter :: natDecimal n)) = .ok n := by
  unfold idFromStrCore
  have hhead : (String.mk (letter :: natDecimal n)).data.head? = some letter := rfl
  rw [if_neg (by rw [hhead]; exact fun hc => hc rfl)]
  have htail : (String.mk (letter :: natDecimal n)).data.tail = natDecimal n := rfl
  rw [htail]
  rw [show parseU64 (String.mk (natDecimal n)) = some n from
    parseUnsigned_natDecimal 64 n h]

theorem lexemeSubFromStrCore_fmt (khar : Char) (l m : Nat)
    (hl : l < 2 ^ 64) (hm : m < 2 ^ 16) (hkdash : khar ≠ '-') :
    lexemeSubFromStrCore khar
      (String.mk ('L' :: natDecimal l ++ '-' :: khar :: natDecimal m))
      = .ok (l, m) := by
  unfold lexemeSubFromStrCore
  have hhead : (String.mk ('L' :: natDecimal l ++ '-' :: khar :: natDecimal m)).data.head?
      = some 'L' := rfl
  rw [if_neg (by rw [hhead]; exact fun hc => hc rfl)]
  have htail : (String.mk ('L' :: natDecimal l ++ '-' :: khar :: natDecimal m)).data.tail
      = natDecimal l ++ '-' :: khar :: natDecimal m := rfl
  rw [htail]
  have hnl : '-' ∉ natDecimal l := not_mem_natDecimal '-' l (by decide)
  have hnm : '-' ∉ khar :: natDecimal m := by
    intro hmem
    rcases List.mem_cons.mp hmem with hc | hc
    · exact hkdash hc.symm
    · exact not_mem_natDecimal '-' m (by decide) hc
  rw [splitChar_append '-' (natDecimal l) (khar :: natDecimal m) hnl,
    splitChar_of_not_mem '-' (khar :: natDecimal m) hnm]
  dsimp only
  rw [show parseU64 (String.mk (natDecimal l)) = some l from
    parseUnsigned_natDecimal 64 l hl]
  dsimp only
  rw [show parseU16 (String.mk ((khar :: natDecimal m).tail)) = some m from
    parseUnsigned_natDecimal 16 m hm]
  simp



theorem idFromStrCore_bad (letter : Char) (s : String)
    (h : s.data.head? ≠ some letter) :
    idFromStrCore letter s = .error .InvalidPrefix := by
  unfold idFromStrCore
  rw [if_pos h]

theorem idFromStrCore_num (letter : Char) (s : String)
    (h : s.data.head? = some letter) :
    idFromStrCore letter s
      = (match parseU64 (String.mk s.data.tail) with
          | some n => Except.ok n
          | none => Except.error IdParseError.UnparseableNumber) := by
  unfold idFromStrCore
  rw [if_neg (by rw [h]; exact fun hc => hc rfl)]

/-- C4: for each of the single-letter identifier kinds (`Qid`, `Pid`,
`Lid`), parsing fails with `InvalidPrefix` unless the first character is
exactly the kind's letter (in particular a `Pid` parse of `"Q1341"` and of
`"1341"` both fail with `InvalidPrefix`), and the remaining characters must
parse as an unsigned 64-bit integer — failure there is
`UnparseableNumber`, success yields the id. -/
theorem claim_C4_id_parsing :
    (∀ s : String, s.data.head? ≠ some 'Q' →
      Qid.from_str s = .error .InvalidPrefix) ∧
    (∀ s : String, s.data.head? = some 'Q' →
      parseU64 (String.mk s.data.tail) = none →
      Qid.from_str s = .error .UnparseableNumber) ∧
    (∀ (s : String) (n : Nat), s.data.head? = some 'Q' →
      parseU64 (String.mk s.data.tail) = some n →
      Qid.from_str s = .ok ⟨n⟩) ∧
    (∀ s : String, s.data.head? ≠ some 'P' →
      Pid.from_str s = .error .InvalidPrefix) ∧
    (∀ s : String, s.data.head? = some 'P' →
      parseU64 (String.mk s.data.tail) = none →
      Pid.from_str s = .error .UnparseableNumber) ∧
    (∀ (s : String) (n : Nat), s.data.head? = some 'P' →
      parseU64 (String.mk s.data.tail) = some n →
      Pid.from_str s = .ok ⟨n⟩) ∧
    (∀ s : String, s.data.head? ≠ some 'L' →
      Lid.from_str s = .error .InvalidPrefix) ∧
    (∀ s : String, s.data.head? = some 'L' →
      parseU64 (String.mk s.data.tail) = none →
      Lid.from_str s = .error .UnparseableNumber) ∧
    (∀ (s : String) (n : Nat), s.data.head? = some 'L' →
      parseU64 (String.mk s.data.tail) = some n →
      Lid.from_str s = .ok ⟨n⟩) ∧
    Pid.from_str "Q1341" = .error .InvalidPrefix ∧
    Pid.from_str "1341" = .error .InvalidPrefix := by
  refine ⟨?_, ?_, ?_, ?_, ?_, ?_, ?_, ?_, ?_, rfl, rfl⟩ <;>
    intro s
  case _ => intro h; simp [Qid.from_str, idFromStrCore_bad 'Q' s h, Except.map]
  case _ => intro h hp; simp [Qid.from_str, idFromStrCore_num 'Q' s h, hp, Except.map]
  case _ => intro n h hp; simp [Qid.from_str, idFromStrCore_num 'Q' s h, hp, Except.map]
  case _ => intro h; simp [Pid.from_str, idFromStrCore_bad 'P' s h, Except.map]
  case _ => intro h hp; simp [Pid.from_str, idFromStrCore_num 'P' s h, hp, Except.map]
  case _ => intro n h hp; simp [Pid.from_str, idFromStrCore_num 'P' s h, hp, Except.map]
  case _ => intro h; simp [Lid.from_str, idFromStrCore_bad 'L' s h, Except.map]
  case _ => intro h hp; simp [Lid.from_str, idFromStrCore_num 'L' s h, hp, Except.map]
  case _ => intro n h hp; simp [Lid.from_str, idFromStrCore_num 'L' s h, hp, Except.map]

/-- Witness for C4: the universal parts applied at `"X1"`, `"P+x"` and
`"L944114"`. -/
theorem claim_C4_witness :
    Qid.from_str "X1" = .error .InvalidPrefix ∧
    Pid.from_str "P+x" = .error .UnparseableNumber ∧
    Lid.from_str "L944114" = .ok ⟨944114⟩ := by
  refine ⟨claim_C4_id_parsing.1 "X1" (by decide),
    claim_C4_id_parsing.2.2.2.2.1 "P+x" (by decide) (by decide),
    claim_C4_id_parsing.2.2.2.2.2.2.2.2.1 "L944114" 944114 (by decide) (by decide)⟩

/-- C5 (amended): for every identifier value of each of the five kinds,
parsing its formatted string returns the same value
(`parse (format v) = Ok v`); the converse string-direction round-trip
`format (parse s) = s` holds only for canonical strings — the image of
`format` — not for every string that parses (see the counterexample
`"Q07"`). -/
theorem claim_C5_roundtrip :
    (∀ n : Nat, n < 2 ^ 64 → Qid.from_str (Qid.fmt ⟨n⟩) = .ok ⟨n⟩) ∧
    (∀ n : Nat, n < 2 ^ 64 → Pid.from_str (Pid.fmt ⟨n⟩) = .ok ⟨n⟩) ∧
    (∀ n : Nat, n < 2 ^ 64 → Lid.from_str (Lid.fmt ⟨n⟩) = .ok ⟨n⟩) ∧
    (∀ l m : Nat, l < 2 ^ 64 → m < 2 ^ 16 →
      Fid.from_str (Fid.fmt ⟨⟨l⟩, m⟩) = .ok ⟨⟨l⟩, m⟩) ∧
    (∀ l m : Nat, l < 2 ^ 64 → m < 2 ^ 16 →
      Sid.from_str (Sid.fmt ⟨⟨l⟩, m⟩) = .ok ⟨⟨l⟩, m⟩) := by
  refine ⟨?_, ?_, ?_, ?_, ?_⟩
  · intro n h
    simp [Qid.from_str, Qid.fmt, idFromStrCore_fmt 'Q' n h, Except.map]
  · intro n h
    simp [Pid.from_str, Pid.fmt, idFromStrCore_fmt 'P' n h, Except.map]
  · intro n h
    simp [Lid.from_str, Lid.fmt, idFromStrCore_fmt 'L' n h, Except.map]
  · intro l m hl hm
    have hcore := lexemeSubFromStrCore_fmt 'F' l m hl hm (by decide)
    unfold Fid.from_str Fid.fmt
    dsimp only
    rw [hcore]
    rfl
  · intro l m hl hm
    have hcore := lexemeSubFromStrCore_fmt 'S' l m hl hm (by decide)
    unfold Sid.from_str Sid.fmt
    dsimp only
    rw [hcore]
    rfl

/-- Counterexample for C5 as stated: `"Q07"` is a valid identifier string
(it parses, to `Qid 7`), but formatting the parse result gives `"Q7"`, not
`"Q07"` — so `format (parse s) = s` fails for some valid strings. -/
theorem claim_C5_counterexample :
    Qid.from_str "Q07" = .ok ⟨7⟩ ∧ Qid.fmt ⟨7⟩ = "Q7" ∧
    ("Q7" : String) ≠ "Q07" :=
  ⟨rfl, rfl, by decide⟩

/-- Witness for C5: the value-direction round-trip applied at `Qid 42` and
`Sid (Lid 5) 9`. -/
theorem claim_C5_witness :
    Qid.from_str (Qid.fmt ⟨42⟩) = .ok ⟨42⟩ ∧
    Sid.from_str (Sid.fmt ⟨⟨5⟩, 9⟩) = .ok ⟨⟨5⟩, 9⟩ :=
  ⟨claim_C5_roundtrip.1 42 (by norm_num),
   claim_C5_roundtrip.2.2.2.2 5 9 (by norm_num) (by norm_num)⟩


/-- Counterexample for C1 as stated: `c1Doc`'s claim node has `qualifiers`
but no `qualifiers-order`, yet `Entity::from_json` does not fail — it
decodes the claim with an empty qualifier list, silently ignoring the
`qualifiers` object. -/
theorem claim_C1_counterexample :
    Entity.from_json c1Doc = .ok
      ⟨.EntityId ⟨1⟩,
       [(⟨1⟩, ⟨.NoValue, .Normal, "x", [], []⟩)],
       .Entity, [], [], []⟩ := rfl

/-- C1 (amended): in claim assembly, the qualifiers branch is driven by
`qualifiers-order` alone — when `qualifiers-order` is absent (or not an
array) the claim decodes with an empty qualifier list no matter whether
`qualifiers` is present; the fatal `QualifiersOrderButNoObject` error
arises in the opposite situation, when `qualifiers-order` is present but
`qualifiers` is absent. -/
theorem claim_C1_qualifiers :
    (∀ claim : Json, (claim.get "qualifiers-order").bind Json.asArr = none →
      parseQualifiers claim = .ok []) ∧
    (∀ (claim : Json) (order : List Json),
      (claim.get "qualifiers-order").bind Json.asArr = some order →
      claim.get "qualifiers" = none →
      parseQualifiers claim = .error .QualifiersOrderButNoObject) := by
  constructor
  · intro claim h
    unfold parseQualifiers
    rw [h]
  · intro claim order h hq
    unfold parseQualifiers
    rw [h, hq]

/-- Witness for C1: both amended branches at concrete claim nodes. -/
theorem claim_C1_witness :
    parseQualifiers (Json.obj [("qualifiers", Json.obj [])]) = .ok [] ∧
    parseQualifiers (Json.obj [("qualifiers-order", Json.arr [])])
      = .error .QualifiersOrderButNoObject :=
  ⟨claim_C1_qualifiers.1 _ rfl, claim_C1_qualifiers.2 _ [] rfl rfl⟩

/-- Counterexample for C2 as stated: a snak whose `snaktype` is
`"novalue"` but which lacks a `datatype` does not decode to `NoValue` —
`datatype` is read (and required to be a string) before the snaktype
dispatch, so the decode fails with `ExpectedString`. -/
theorem claim_C2_counterexample :
    parse_snak (Json.obj [("snaktype", Json.str "novalue")])
      = .error .ExpectedString := rfl

/-- C2 (amended): `parse_snak` reads `datatype` first (it must be a
string); given that, the snaktype dispatch behaves as claimed:
`"novalue"` yields `Ok NoValue`, `"somevalue"` yields `Ok UnknownValue`,
`"value"` continues into the datavalue dispatch, and any other snaktype is
the fatal `InvalidSnaktype`. -/
theorem claim_C2_snaktype :
    ∀ (snak : Json) (dt st : String),
      get_json_string (takeProp "datatype" (takeProp "datavalue" snak).2).1
        = .ok dt →
      get_json_string
          (takeProp "snaktype"
            (takeProp "datatype" (takeProp "datavalue" snak).2).2).1
        = .ok st →
      ((st = "novalue" → parse_snak snak = .ok ClaimValueData.NoValue) ∧
       (st = "somevalue" →
          parse_snak snak = .ok ClaimValueData.UnknownValue) ∧
       (st = "value" →
          parse_snak snak
            = datavalueBody dt (takeProp "datavalue" snak).1) ∧
       (st ≠ "novalue" → st ≠ "somevalue" → st ≠ "value" →
          parse_snak snak = .error .InvalidSnaktype)) := by
  intro snak dt st hdt hst
  have hps : parse_snak snak = snakBody dt st (takeProp "datavalue" snak).1 := by
    unfold parse_snak
    dsimp only
    rw [hdt, hst]
  refine ⟨?_, ?_, ?_, ?_⟩
  · intro h
    subst h
    rw [hps]
    rfl
  · intro h
    subst h
    rw [hps]
    rfl
  · intro h
    subst h
    rw [hps]
    rfl
  · intro h1 h2 h3
    rw [hps]
    unfold snakBody
    split
    next => exact absurd rfl h3
    next => exact absurd rfl h2
    next => exact absurd rfl h1
    next => rfl

/-- Witness for C2: the dispatch applied to concrete snaks covering all
four arms. -/
theorem claim_C2_witness :
    parse_snak (Json.obj [("datatype", Json.str "string"),
        ("snaktype", Json.str "novalue")]) = .ok ClaimValueData.NoValue ∧
    parse_snak (Json.obj [("datatype", Json.str "string"),
        ("snaktype", Json.str "somevalue")])
      = .ok ClaimValueData.UnknownValue ∧
    parse_snak (Json.obj [("datatype", Json.str "string"),
        ("snaktype", Json.str "bogus")]) = .error .InvalidSnaktype :=
  ⟨(claim_C2_snaktype (Json.obj [("datatype", Json.str "string"),
        ("snaktype", Json.str "novalue")]) "string" "novalue" rfl rfl).1 rfl,
   (claim_C2_snaktype (Json.obj [("datatype", Json.str "string"),
        ("snaktype", Json.str "somevalue")]) "string" "somevalue" rfl rfl).2.1
     rfl,
   (claim_C2_snaktype (Json.obj [("datatype", Json.str "string"),
        ("snaktype", Json.str "bogus")]) "string" "bogus" rfl rfl).2.2.2
     (by decide) (by decide) (by decide)⟩


/-- `parse_wb_number` returns a value or an error, never a panic. -/
theorem parse_wb_number_ne_panic (j : Json) : parse_wb_number j ≠ .panic := by
  unfold parse_wb_number
  cases j <;> simp
  split <;> simp

/-- `try_get_as_qid` returns a value or an error, never a panic. -/
theorem try_get_as_qid_ne_panic (j : Json) : try_get_as_qid j ≠ .panic := by
  unfold try_get_as_qid
  split
  · simp
  · split
    · simp
    · split <;> simp

/-- C3: for a snak whose `datavalue.type` is `"time"` (with the required
`time` string present), a `parse_wb_time` failure makes the snak decode
successfully to `UnknownValue` instead of an error; and on the path where
the time string does parse, `precision` is required and fatal if
unparsable, with error `InvalidPrecision`. -/
theorem claim_C3_time_fallback :
    (∀ (snak : Json) (dt : String),
      get_json_string (takeProp "datatype" (takeProp "datavalue" snak).2).1
        = .ok dt →
      get_json_string
          (takeProp "snaktype"
            (takeProp "datatype" (takeProp "datavalue" snak).2).2).1
        = .ok "value" →
      (takeProp "type" (takeProp "datavalue" snak).1).1.asStr = some "time" →
      parse_snak snak
        = timeArm
            (takeProp "value"
              (takeProp "type" (takeProp "datavalue" snak).1).2).1) ∧
    (∀ (value : Json) (ts : String),
      get_json_string (takeProp "time" value).1 = .ok ts →
      ((∀ e, parse_wb_time ts = .error e →
          timeArm value = .ok ClaimValueData.UnknownValue) ∧
       (∀ d, parse_wb_time ts = .ok d →
          ((∀ e, parse_wb_number
                (takeProp "precision" (takeProp "time" value).2).1
              = .error e → timeArm value = .error .InvalidPrecision) ∧
           (∀ p, parse_wb_number
                (takeProp "precision" (takeProp "time" value).2).1
              = .ok p →
              timeArm value
                = .ok (ClaimValueData.DateTime d (f64AsU8 p))))))) := by
  constructor
  · intro snak dt hdt hst htype
    have hps : parse_snak snak
        = snakBody dt "value" (takeProp "datavalue" snak).1 := by
      unfold parse_snak
      dsimp only
      rw [hdt, hst]
    rw [hps]
    show datavalueBody dt (takeProp "datavalue" snak).1 = _
    unfold datavalueBody
    dsimp only
    rw [htype]
    rfl
  · intro value ts hts
    constructor
    · intro e he
      unfold timeArm
      dsimp only
      rw [hts]
      dsimp only
      rw [he]
    · intro d hd
      constructor
      · intro e he
        unfold timeArm
        dsimp only
        rw [hts]
        dsimp only
        rw [hd]
        dsimp only
        rw [he]
      · intro p hp
        unfold timeArm
        dsimp only
        rw [hts]
        dsimp only
        rw [hd]
        dsimp only
        rw [hp]

/-- Witness for C3: the routing applied to a full concrete time snak, and
the three time-arm branches at concrete value objects (unparsable time with no
precision still decodes; parsable time with missing precision is
`InvalidPrecision`; parsable time and precision give a `DateTime`). -/
theorem claim_C3_witness :
    timeArm (Json.obj [("time", Json.str "bogus")])
      = .ok ClaimValueData.UnknownValue ∧
    timeArm (Json.obj [("time", Json.str "+1952-03-11T00:00:00Z")])
      = .error .InvalidPrecision ∧
    timeArm (Json.obj [("precision", Json.num (F64.finite 11)),
        ("time", Json.str "+1952-03-11T00:00:00Z")])
      = .ok (ClaimValueData.DateTime ⟨1952, 3, 11, 0, 0, 0⟩
          (f64AsU8 (F64.finite 11))) :=
  ⟨((claim_C3_time_fallback.2 (Json.obj [("time", Json.str "bogus")])
      "bogus" rfl).1 .NoDateYear rfl),
   ((claim_C3_time_fallback.2
      (Json.obj [("time", Json.str "+1952-03-11T00:00:00Z")])
      "+1952-03-11T00:00:00Z" rfl).2 ⟨1952, 3, 11, 0, 0, 0⟩ rfl).1
      .ExpectedNumberString rfl,
   ((claim_C3_time_fallback.2
      (Json.obj [("precision", Json.num (F64.finite 11)),
        ("time", Json.str "+1952-03-11T00:00:00Z")])
      "+1952-03-11T00:00:00Z" rfl).2 ⟨1952, 3, 11, 0, 0, 0⟩ rfl).2
      (F64.finite 11) rfl⟩



/-- C6: for a snak whose `datavalue.type` is `"quantity"`, a missing or
unparsable `amount` is a fatal decode error, while `upperBound`,
`lowerBound` and `unit` are each read through `Result::ok` — any parse
failure on those three leaves the field `None` and never fails the snak
(in particular an unparsable `unit` gives `unit = None` on a successful
decode). -/
theorem claim_C6_quantity :
    (∀ (snak : Json) (dt : String),
      get_json_string (takeProp "datatype" (takeProp "datavalue" snak).2).1
        = .ok dt →
      get_json_string
          (takeProp "snaktype"
            (takeProp "datatype" (takeProp "datavalue" snak).2).2).1
        = .ok "value" →
      (takeProp "type" (takeProp "datavalue" snak).1).1.asStr
        = some "quantity" →
      parse_snak snak
        = quantityArm
            (takeProp "value"
              (takeProp "type" (takeProp "datavalue" snak).1).2).1) ∧
    (∀ value : Json,
      (∀ e, parse_wb_number (takeProp "amount" value).1 = .error e →
        quantityArm value = .error e) ∧
      (∀ a, parse_wb_number (takeProp "amount" value).1 = .ok a →
        quantityArm value = .ok (ClaimValueData.Quantity a
          (resultToOption (parse_wb_number
            (takeProp "lowerBound"
              (takeProp "upperBound" (takeProp "amount" value).2).2).1))
          (resultToOption (parse_wb_number
            (takeProp "upperBound" (takeProp "amount" value).2).1))
          (resultToOption (try_get_as_qid
            (takeProp "unit"
              (takeProp "lowerBound"
                (takeProp "upperBound" (takeProp "amount" value).2).2).2).1))))) := by
  constructor
  · intro snak dt hdt hst htype
    have hps : parse_snak snak
        = snakBody dt "value" (takeProp "datavalue" snak).1 := by
      unfold parse_snak
      dsimp only
      rw [hdt, hst]
    rw [hps]
    show datavalueBody dt (takeProp "datavalue" snak).1 = _
    unfold datavalueBody
    dsimp only
    rw [htype]
    rfl
  · intro value
    constructor
    · intro e he
      unfold quantityArm
      dsimp only
      rw [he]
    · intro a ha
      unfold quantityArm
      dsimp only
      rw [ha]
      dsimp only
      cases hub : parse_wb_number
          (takeProp "upperBound" (takeProp "amount" value).2).1 with
      | panic => exact absurd hub (parse_wb_number_ne_panic _)
      | ok x =>
        cases hlb : parse_wb_number
            (takeProp "lowerBound"
              (takeProp "upperBound" (takeProp "amount" value).2).2).1 with
        | panic => exact absurd hlb (parse_wb_number_ne_panic _)
        | ok y =>
          cases hu : try_get_as_qid
              (takeProp "unit"
                (takeProp "lowerBound"
                  (takeProp "upperBound" (takeProp "amount" value).2).2).2).1 with
          | panic => exact absurd hu (try_get_as_qid_ne_panic _)
          | ok z => simp [resultToOption]
          | error ez => simp [resultToOption]
        | error ey =>
          cases hu : try_get_as_qid
              (takeProp "unit"
                (takeProp "lowerBound"
                  (takeProp "upperBound" (takeProp "amount" value).2).2).2).1 with
          | panic => exact absurd hu (try_get_as_qid_ne_panic _)
          | ok z => simp [resultToOption]
          | error ez => simp [resultToOption]
      | error ex =>
        cases hlb : parse_wb_number
            (takeProp "lowerBound"
              (takeProp "upperBound" (takeProp "amount" value).2).2).1 with
        | panic => exact absurd hlb (parse_wb_number_ne_panic _)
        | ok y =>
          cases hu : try_get_as_qid
              (takeProp "unit"
                (takeProp "lowerBound"
                  (takeProp "upperBound" (takeProp "amount" value).2).2).2).1 with
          | panic => exact absurd hu (try_get_as_qid_ne_panic _)
          | ok z => simp [resultToOption]
          | error ez => simp [resultToOption]
        | error ey =>
          cases hu : try_get_as_qid
              (takeProp "unit"
                (takeProp "lowerBound"
                  (takeProp "upperBound" (takeProp "amount" value).2).2).2).1 with
          | panic => exact absurd hu (try_get_as_qid_ne_panic _)
          | ok z => simp [resultToOption]
          | error ez => simp [resultToOption]

/-- Witness for C6: a quantity value with a numeric amount and the
unparsable unit `"1"` decodes successfully with all three optional fields
`None`; a quantity value object with no `amount` fails with
`ExpectedNumberString`; and the routing conjunct applied to a full
concrete quantity snak. -/
theorem claim_C6_witness :
    quantityArm (Json.obj [("amount", Json.num (F64.finite 1)),
        ("unit", Json.str "1")])
      = .ok (ClaimValueData.Quantity (F64.finite 1) none none none) ∧
    quantityArm (Json.obj []) = .error .ExpectedNumberString ∧
    parse_snak (Json.obj
        [("datatype", Json.str "quantity"),
         ("datavalue", Json.obj [("type", Json.str "quantity"),
            ("value", Json.obj [("amount", Json.num (F64.finite 1)),
              ("unit", Json.str "1")])]),
         ("snaktype", Json.str "value")])
      = quantityArm (takeProp "value"
          (takeProp "type" (takeProp "datavalue" (Json.obj
            [("datatype", Json.str "quantity"),
             ("datavalue", Json.obj [("type", Json.str "quantity"),
                ("value", Json.obj [("amount", Json.num (F64.finite 1)),
                  ("unit", Json.str "1")])]),
             ("snaktype", Json.str "value")])).1).2).1 :=
  ⟨(claim_C6_quantity.2 (Json.obj [("amount", Json.num (F64.finite 1)),
      ("unit", Json.str "1")])).2 (F64.finite 1) rfl,
   (claim_C6_quantity.2 (Json.obj [])).1 .ExpectedNumberString rfl,
   claim_C6_quantity.1 (Json.obj
      [("datatype", Json.str "quantity"),
       ("datavalue", Json.obj [("type", Json.str "quantity"),
          ("value", Json.obj [("amount", Json.num (F64.finite 1)),
            ("unit", Json.str "1")])]),
       ("snaktype", Json.str "value")]) "quantity" rfl rfl rfl⟩


/-- C7: `parse_wb_time` on the empty string fails with `TimeEmpty`; a
month or day component equal to `0` or unparsable is treated as
unspecified (defaulting to 1) and is never an error by itself; and
`"+2001-12-31T00:00:00Z"` parses to the UTC instant 2001-12-31T00:00:00
(`"+1979-00-00T00:00:00Z"` to 1979-01-01T00:00:00). -/
theorem claim_C7_time_parsing :
    parse_wb_time "" = .error .TimeEmpty ∧
    (∀ s : String, parseU32 s = some 0 ∨ parseU32 s = none →
      optMonthDay s = none) ∧
    parse_wb_time "+2001-12-31T00:00:00Z" = .ok ⟨2001, 12, 31, 0, 0, 0⟩ ∧
    parse_wb_time "+1979-00-00T00:00:00Z" = .ok ⟨1979, 1, 1, 0, 0, 0⟩ := by
  refine ⟨rfl, ?_, rfl, rfl⟩
  intro s h
  rcases h with h | h <;> simp [optMonthDay, h]

/-- Witness for C7: the unspecified-month rule applied at the string
`"00"`. -/
theorem claim_C7_witness : optMonthDay "00" = none :=
  claim_C7_time_parsing.2.1 "00" (Or.inl rfl)

/-- C9: `parse_wb_time` is not total on non-empty strings containing a
`'T'` segment — a seconds field shorter than two bytes panics at the
`[0..2]` byte slice, and an out-of-range time of day (e.g. hour 25)
panics inside `chrono`'s unchecked `and_hms`. -/
theorem claim_C9_time_panics :
    parse_wb_time "+2001-12-31T00:00:0" = .panic ∧
    parse_wb_time "+2001-12-31T25:00:00Z" = .panic :=
  ⟨rfl, rfl⟩

/-- C8: when the document has a top-level `entities` object,
`Entity::from_json` fails with `NoEntities` on zero entries and
`MultipleEntities` on two or more; with exactly one entry, that entry's
value becomes the working entity node. -/
theorem claim_C8_envelope :
    ∀ (doc : Json) (fields : List (String × Json)),
      doc.get "entities" = some (Json.obj fields) →
      ((fields = [] → Entity.from_json doc = .error .NoEntities) ∧
       (2 ≤ fields.length →
          Entity.from_json doc = .error .MultipleEntities) ∧
       (∀ k v, fields = [(k, v)] →
          Entity.from_json doc = entityFromNode v)) := by
  intro doc fields hget
  refine ⟨?_, ?_, ?_⟩
  · intro h
    subst h
    unfold Entity.from_json
    simp only [hget]
    rfl
  · intro h
    match fields, hget, h with
    | x :: y :: rest, hget, _ =>
      unfold Entity.from_json
      simp only [hget]
      rfl
  · intro k v h
    subst h
    unfold Entity.from_json
    simp only [hget]
    rfl

/-- Witness for C8: the three envelope shapes at concrete documents. -/
theorem claim_C8_witness :
    Entity.from_json (Json.obj [("entities", Json.obj [])])
      = .error .NoEntities ∧
    Entity.from_json (Json.obj [("entities",
        Json.obj [("Q1", Json.null), ("Q2", Json.null)])])
      = .error .MultipleEntities ∧
    Entity.from_json (Json.obj [("entities",
        Json.obj [("Q1", Json.null)])])
      = entityFromNode Json.null :=
  ⟨(claim_C8_envelope (Json.obj [("entities", Json.obj [])]) [] rfl).1 rfl,
   (claim_C8_envelope (Json.obj [("entities",
      Json.obj [("Q1", Json.null), ("Q2", Json.null)])])
      [("Q1", Json.null), ("Q2", Json.null)] rfl).2.1 (by decide),
   (claim_C8_envelope (Json.obj [("entities",
      Json.obj [("Q1", Json.null)])])
      [("Q1", Json.null)] rfl).2.2 "Q1" Json.null rfl⟩


/-- C10: on the working entity node, `Entity::from_json` requires a
`claims` key — its absence fails the decode with `NoClaims` (given the
earlier steps, which run first, succeed) — whereas absence of `labels`,
`descriptions` or `aliases` is not an error: each defaults to an empty
map in any successfully decoded entity. -/
theorem claim_C10_claims_required :
    (∀ (node idV tv : Json) (raw ts : String) (wid : WikiId)
        (L D : List (Lang × String)) (A : List (Lang × List String)),
      node.get "id" = some idV →
      idV.asStr = some raw →
      WikiId.from_str raw = .ok wid →
      textKeyval node "labels" = .ok L →
      textKeyval node "descriptions" = .ok D →
      parseAliases node = .ok A →
      node.get "type" = some tv →
      tv.asStr = some ts →
      (ts = "item" ∨ ts = "property" ∨ ts = "lexeme") →
      node.get "claims" = none →
      entityFromNode node = .error .NoClaims) ∧
    (∀ (node : Json) (e : Entity), entityFromNode node = .ok e →
      ((node.get "labels" = none → e.labels = []) ∧
       (node.get "descriptions" = none → e.descriptions = []) ∧
       (node.get "aliases" = none → e.aliases = []))) := by
  constructor
  · intro node idV tv raw ts wid L D A hid hraw hwid hl hd ha htv hts hts3 hcl
    unfold entityFromNode
    rw [hid]
    dsimp only
    rw [hraw]
    dsimp only
    rw [hwid]
    dsimp only
    rw [hl]
    dsimp only
    rw [hd]
    dsimp only
    rw [ha]
    dsimp only
    rw [htv]
    dsimp only [Option.map]
    rw [hts]
    rcases hts3 with h | h | h <;> subst h <;> simp only [hcl]
  · intro node e h
    refine ⟨?_, ?_, ?_⟩
    · intro hnone
      unfold entityFromNode at h
      rw [show textKeyval node "labels" = RustResult.ok [] from by
        unfold textKeyval; rw [hnone]] at h
      repeat' split at h
      all_goals simp_all
      all_goals rw [← h]
    · intro hnone
      unfold entityFromNode at h
      rw [show textKeyval node "descriptions" = RustResult.ok [] from by
        unfold textKeyval; rw [hnone]] at h
      repeat' split at h
      all_goals simp_all
      all_goals rw [← h]
    · intro hnone
      unfold entityFromNode at h
      rw [show parseAliases node = RustResult.ok [] from by
        unfold parseAliases; rw [hnone]] at h
      repeat' split at h
      all_goals simp_all
      all_goals rw [← h]



/-- Witness for C10: a working node with `id` and `type` but no `claims`
key fails with `NoClaims`; and the empty-map default applied to a decoded
entity whose node has no `labels` key. -/
theorem claim_C10_witness :
    entityFromNode (Json.obj [("id", Json.str "Q1"),
        ("type", Json.str "item")]) = .error .NoClaims ∧
    (Entity.mk (.EntityId ⟨1⟩) [] .Entity [] [] []).labels = [] :=
  ⟨claim_C10_claims_required.1
      (Json.obj [("id", Json.str "Q1"), ("type", Json.str "item")])
      (Json.str "Q1") (Json.str "item") "Q1" "item"
      (.EntityId ⟨1⟩) [] [] []
      rfl rfl rfl rfl rfl rfl rfl rfl (Or.inl rfl) rfl,
   (claim_C10_claims_required.2
      (Json.obj [("claims", Json.obj []), ("id", Json.str "Q1"),
        ("type", Json.str "item")])
      ⟨.EntityId ⟨1⟩, [], .Entity, [], [], []⟩ rfl).1 rfl⟩

end Wikidata
